import Mathlib

/-!
Verification of the go-kenall client library (github.com/osamingo/go-kenall).

This file shallowly embeds the parts of the library relevant to the
specification claims: the error taxonomy (`errors.go`), the custom JSON
decoders for `Version`, `NullString`, `RemoteAddress` and `Holiday`
(`types.go`), and the request building / response dispatching of
`client.go` (`sendRequest` and the public operations).

Go's `time.Time` is modelled as a civil date plus a second-of-day and a
zone offset; Go's error values are modelled as an inductive type with a
structural `errors.Is`.  HTTP exchanges are modelled by an explicit
`DoResult` value standing for the outcome of `http.Client.Do` plus the
JSON decoding of a 200 body.
-/

/-! ## Go error values (`errors.go`, `fmt.Errorf`, `net/url.Error`) -/

/-- Model of the Go error values that flow through this library.
The seven sentinel constructors are the package-level sentinels of
`errors.go`; `deadlineExceeded` is `context.DeadlineExceeded`;
`fmtErr` models `errors.New` / `fmt.Errorf` without `%w`;
`wrap` models `fmt.Errorf("<msg>%w", cause)` (message = msg ++ cause msg);
`urlError` models the `*url.Error` returned by `http.Client.Do`, which
unwraps to its cause and has a `Timeout()` method reported by the flag. -/
inductive GoErr where
  | invalidArgument
  | unauthorized
  | paymentRequired
  | forbidden
  | notFound
  | methodNotAllowed
  | internalServerError
  | deadlineExceeded
  | fmtErr (msg : String)
  | wrap (msg : String) (cause : GoErr)
  | urlError (timeout : Bool) (cause : GoErr)
  deriving DecidableEq, Repr

/-- Model of Go `errors.Is`: identity at each step of the `Unwrap` chain.
`wrap` (a `fmt` wrap error) and `urlError` unwrap to their cause; the
sentinels and `fmtErr` do not unwrap. -/
def errorsIs : GoErr → GoErr → Bool
  | GoErr.wrap m c, t => GoErr.wrap m c == t || errorsIs c t
  | GoErr.urlError b c, t => GoErr.urlError b c == t || errorsIs c t
  | e, t => e == t

/-- Model of Go `os.IsTimeout`: true when the error value itself exposes a
`Timeout() bool` method returning true.  `*url.Error` delegates to the flag
recorded at construction; `context.DeadlineExceeded` has `Timeout() = true`.
`os.IsTimeout` does not walk the unwrap chain. -/
def osIsTimeout : GoErr → Bool
  | GoErr.urlError b _ => b
  | GoErr.deadlineExceeded => true
  | _ => false

/-- The `Error()` message of a modelled Go error.  Sentinel texts are the
exact strings of `errors.go`; a `wrap` prepends its prefix text to the
message of its cause, mirroring `fmt.Errorf("<text>%w", err)`. -/
def errMessage : GoErr → String
  | GoErr.invalidArgument => "kenall: invalid argument"
  | GoErr.unauthorized => "kenall: 401 unauthorized error"
  | GoErr.paymentRequired => "kenall: 402 payment required error"
  | GoErr.forbidden => "kenall: 403 forbidden error"
  | GoErr.notFound => "kenall: 404 not found error"
  | GoErr.methodNotAllowed => "kenall: 405 method not allowed error"
  | GoErr.internalServerError => "kenall: 500 internal server error"
  | GoErr.deadlineExceeded => "context deadline exceeded"
  | GoErr.fmtErr m => m
  | GoErr.wrap m c => m ++ errMessage c
  | GoErr.urlError _ c => "url error: " ++ errMessage c

/-! ## Strings and `strconv.Atoi` -/

/-- ASCII decimal digit test, as used by `strconv.Atoi`. -/
def isDigitChar (c : Char) : Bool := 48 ≤ c.toNat && c.toNat ≤ 57

/-- Decimal value of an ASCII digit character (code point minus 48). -/
def digitVal (c : Char) : Nat := c.toNat - 48

/-- Numeric value of a list of ASCII digits (most significant first). -/
def digitsVal (cs : List Char) : Nat :=
  cs.foldl (fun acc c => 10 * acc + digitVal c) 0

/-- Model of `strconv.Atoi(s)` succeeding: an optional single leading
`+` or `-` sign followed by a non-empty run of ASCII digits, whose value
fits in a 64-bit signed int (`strconv.ParseInt` range check; the fast
path for short inputs cannot overflow). -/
def atoiOk (s : String) : Bool :=
  match s.toList with
  | [] => false
  | c :: rest =>
    let ds := if c == '+' || c == '-' then rest else c :: rest
    !ds.isEmpty && ds.all isDigitChar &&
      (if c == '-' then digitsVal ds ≤ 2 ^ 63 else digitsVal ds ≤ 2 ^ 63 - 1)

/-- The spec's notion of an all-ASCII-digits string (non-empty). -/
def isAllDigits (s : String) : Bool :=
  !s.toList.isEmpty && s.toList.all isDigitChar

/-- Model of Go `unicode.IsSpace` (the White_Space property), as used by
`strings.TrimSpace`. -/
def goIsSpace (c : Char) : Bool :=
  c == ' ' || c == '\t' || c == '\n' || c.toNat == 11 || c.toNat == 12 ||
  c == '\r' || c.toNat == 0x85 || c.toNat == 0xA0 || c.toNat == 0x1680 ||
  (0x2000 ≤ c.toNat && c.toNat ≤ 0x200A) || c.toNat == 0x2028 ||
  c.toNat == 0x2029 || c.toNat == 0x202F || c.toNat == 0x205F ||
  c.toNat == 0x3000

/-- Model of Go `strings.TrimSpace`: drop leading and trailing
white-space runes. -/
def trimSpace (s : String) : String :=
  (((s.toList.dropWhile goIsSpace).reverse.dropWhile goIsSpace).reverse).asString

/-! ## Go `time.Time` (civil date + second-of-day + zone offset) -/

/-- Model of a Go `time.Time` as stored by this library: the wall-clock
civil date in the value's location, the second of that day, and the
location's offset from UTC in seconds.  All times handled by the library
are date-only (`secondsOfDay = 0`). -/
structure GoTime where
  year : Int
  month : Nat
  day : Nat
  secondsOfDay : Nat
  offset : Int
  deriving DecidableEq, Repr

/-- The zero `time.Time`: January 1, year 1, 00:00:00 UTC. -/
def goTimeZero : GoTime := ⟨1, 1, 1, 0, 0⟩

/-- Days from the civil epoch 1970-01-01 to the given Gregorian date
(negative before the epoch).  Standard days-from-civil computation with
floor division. -/
def daysFromCivil (y : Int) (m d : Nat) : Int :=
  let y2 : Int := if m ≤ 2 then y - 1 else y
  let era : Int := Int.fdiv y2 400
  let yoe : Int := y2 - era * 400
  let mp : Nat := if m > 2 then m - 3 else m + 9
  let doy : Int := Int.ofNat ((153 * mp + 2) / 5 + (d - 1))
  let doe : Int := yoe * 365 + Int.fdiv yoe 4 - Int.fdiv yoe 100 + doy
  era * 146097 + doe - 719468

/-- Seconds since the Unix epoch of the instant represented by a
`GoTime` (wall clock minus the zone offset). -/
def goUnix (t : GoTime) : Int :=
  daysFromCivil t.year t.month t.day * 86400 + Int.ofNat t.secondsOfDay - t.offset

/-- Model of Go `time.Time.IsZero`: the value represents the zero
instant, January 1, year 1, 00:00:00 UTC. -/
def GoTime.isZero (t : GoTime) : Bool := goUnix t == goUnix goTimeZero

/-- Model of Go `time.Time.Weekday` as an integer, 0 = Sunday ..
6 = Saturday.  1970-01-01 was a Thursday (4). -/
def goWeekday (t : GoTime) : Nat :=
  ((daysFromCivil t.year t.month t.day + 4).emod 7).toNat

/-- `time.Weekday.String` values, indexed 0 = Sunday .. 6 = Saturday. -/
def weekdayName : Nat → String
  | 0 => "Sunday"
  | 1 => "Monday"
  | 2 => "Tuesday"
  | 3 => "Wednesday"
  | 4 => "Thursday"
  | 5 => "Friday"
  | _ => "Saturday"

/-- ASCII lower-casing of a string, modelling `strings.ToLower` on the
ASCII weekday names. -/
def asciiLower (s : String) : String :=
  (s.toList.map fun c =>
    if 'A' ≤ c && c ≤ 'Z' then Char.ofNat (c.toNat + 32) else c).asString

/-- Gregorian leap-year test. -/
def isLeapYear (y : Int) : Bool :=
  (Int.emod y 4 == 0 && Int.emod y 100 != 0) || Int.emod y 400 == 0

/-- Days in a month of a given year. -/
def daysInMonth (y : Int) (m : Nat) : Nat :=
  if m == 2 then (if isLeapYear y then 29 else 28)
  else if m == 4 || m == 6 || m == 9 || m == 11 then 30
  else 31

/-- Left-pad with zeros the decimal form of `n` to `w` digits, as the
`"2006"`, `"01"`, `"02"` layout elements of `time.Format` do. -/
def padNat (w n : Nat) : String :=
  let s := toString n
  (List.replicate (w - s.length) '0').asString ++ s

/-- Model of `t.Format("2006-01-02")`: the wall-clock date of `t` in
`YYYY-MM-DD` form. -/
def goFormatDate (t : GoTime) : String :=
  padNat 4 t.year.toNat ++ "-" ++ padNat 2 t.month ++ "-" ++ padNat 2 t.day

/-- The `YYYY-MM-DD` layout check of `time.Parse`: exactly ten
characters, ASCII digits around literal dashes, a month in 1..12 and a
day valid for that month/year. -/
def parseCivilDate (s : String) : Option (Int × Nat × Nat) :=
  match s.toList with
  | [y1, y2, y3, y4, h1, m1, m2, h2, d1, d2] =>
    if h1 == '-' && h2 == '-' &&
        ([y1, y2, y3, y4, m1, m2, d1, d2].all isDigitChar) then
      let y : Int := Int.ofNat
        (digitVal y1 * 1000 + digitVal y2 * 100 + digitVal y3 * 10 + digitVal y4)
      let mo : Nat := digitVal m1 * 10 + digitVal m2
      let da : Nat := digitVal d1 * 10 + digitVal d2
      if 1 ≤ mo && mo ≤ 12 && 1 ≤ da && da ≤ daysInMonth y mo then
        some (y, mo, da)
      else none
    else none
  | _ => none

/-- Model of `time.ParseInLocation("2006-01-02", s, loc)` where `loc` has
the given offset from UTC: on success the result is midnight of the
parsed wall-clock date in the location. -/
def parseDate (offset : Int) (s : String) : Option GoTime :=
  (parseCivilDate s).map fun ymd => ⟨ymd.1, ymd.2.1, ymd.2.2, 0, offset⟩

/-- The fixed UTC+9 zone `jst` of `types.go`
(`time.FixedZone("Asia/Tokyo", 9*60*60)`), as an offset in seconds. -/
def jstOffset : Int := 9 * 60 * 60

/-! ## JSON values and the custom decoders of `types.go` -/

/-- A JSON value, as seen by an `UnmarshalJSON` method.  Only the shape
of the value matters to the decoders under verification, so array and
object payloads are not recorded. -/
inductive JsonValue where
  | null
  | str (s : String)
  | num (n : Int)
  | boolean (b : Bool)
  | arr
  | obj
  deriving DecidableEq, Repr

/-- `NullString` of `types.go`: a string that may be null.  `valid` is
true if `string` is not NULL (Go fields `String` / `Valid`). -/
structure NullString where
  string : String
  valid : Bool
  deriving DecidableEq, Repr

/-- The zero `NullString`. -/
def nullStringZero : NullString := ⟨"", false⟩

/-- Model of `NullString.UnmarshalJSON` (`types.go`).  The receiver is
mutated in place in Go, so the model returns the new receiver state
together with the returned error (if any): the `null` literal returns
early without touching the receiver; a JSON string is decoded into
`.string` and then `.valid` is set; any other value makes the inner
`json.Unmarshal` into a `string` fail with a type error before writing,
so the receiver is unchanged and a wrapped error is returned. -/
def nullStringUnmarshalJSON (ns : NullString) (data : JsonValue) :
    NullString × Option GoErr :=
  match data with
  | JsonValue.null => (ns, none)
  | JsonValue.str s => ({ string := s, valid := true }, none)
  | _ => (ns, some (GoErr.wrap "kenall: failed to parse NullString: "
      (GoErr.fmtErr "json: cannot unmarshal value into Go value of type string")))

/-- Model of `time.Parse("\"2006-01-02\"", s)` as used by
`Version.UnmarshalJSON`: the raw token must be a double-quoted
`YYYY-MM-DD` date.  The parsed time is in UTC (offset 0). -/
def parseQuotedDate (s : String) : Option GoTime :=
  match s.toList with
  | q1 :: rest =>
    if q1 == '"' then
      match rest.reverse with
      | q2 :: body =>
        if q2 == '"' then parseDate 0 body.reverse.asString else none
      | [] => none
    else none
  | [] => none

/-- Model of `Version.UnmarshalJSON` (`types.go`).  `Version` is
`type Version time.Time`; the receiver is returned together with the
error.  The exact token `null` returns early leaving the receiver
untouched; otherwise the raw token is parsed with the quoted layout
`"2006-01-02"`, assigning on success and returning a wrapped parse
error (receiver untouched) on failure. -/
def versionUnmarshalJSON (v : GoTime) (data : String) : GoTime × Option GoErr :=
  if data == "null" then (v, none)
  else
    match parseQuotedDate data with
    | some t => (t, none)
    | none => (v, some (GoErr.wrap "kenall: failed to parse date with RFC3339 Date: "
        (GoErr.fmtErr "parsing time as 2006-01-02: cannot parse input")))

/-! ## IP addresses (`net.ParseIP` / `net.ResolveIPAddr` model) -/

/-- An IP address: a dotted-quad IPv4 address or eight 16-bit IPv6
groups. -/
inductive IP where
  | v4 (a b c d : Nat)
  | v6 (gs : List Nat)
  deriving DecidableEq, Repr

/-- One decimal field of an IPv4 literal: 1 to 3 ASCII digits, value at
most 255, no leading zero (Go 1.17+ `ParseIP` rejects leading zeros). -/
def parseV4Part (cs : List Char) : Option Nat :=
  if cs.isEmpty then none
  else if !cs.all isDigitChar then none
  else if cs.length > 3 then none
  else if cs.head? == some '0' && cs.length > 1 then none
  else if digitsVal cs ≤ 255 then some (digitsVal cs) else none

/-- Split a character list on a separator character. -/
def splitOnChar (sep : Char) : List Char → List (List Char)
  | [] => [[]]
  | c :: rest =>
    let r := splitOnChar sep rest
    if c == sep then [] :: r
    else
      match r with
      | [] => [[c]]
      | g :: gs => (c :: g) :: gs

/-- Parse a dotted-quad IPv4 literal. -/
def parseIPv4 (cs : List Char) : Option IP :=
  match splitOnChar '.' cs with
  | [a, b, c, d] =>
    match parseV4Part a, parseV4Part b, parseV4Part c, parseV4Part d with
    | some a', some b', some c', some d' => some (IP.v4 a' b' c' d')
    | _, _, _, _ => none
  | _ => none

/-- Hexadecimal value of a digit character, if any (code points 48..57,
97..102 and 65..70 are the three digit ranges). -/
def hexVal (c : Char) : Option Nat :=
  if isDigitChar c then some (digitVal c)
  else if 97 ≤ c.toNat && c.toNat ≤ 102 then some (c.toNat - 87)
  else if 65 ≤ c.toNat && c.toNat ≤ 70 then some (c.toNat - 55)
  else none

/-- One 16-bit group of an IPv6 literal: 1 to 4 hex digits. -/
def parseHexGroup (cs : List Char) : Option Nat :=
  if cs.isEmpty || cs.length > 4 then none
  else
    cs.foldl (fun acc c =>
      match acc, hexVal c with
      | some v, some d => some (v * 16 + d)
      | _, _ => none) (some 0)

/-- Split a character list at the first occurrence of a double colon
`::`, if any. -/
def findDoubleColon : List Char → Option (List Char × List Char)
  | ':' :: ':' :: rest => some ([], rest)
  | c :: rest =>
    match findDoubleColon rest with
    | some (l, r) => some (c :: l, r)
    | none => none
  | [] => none

/-- Parse all groups of a colon-separated list of hex groups. -/
def parseGroups (cs : List Char) : Option (List Nat) :=
  if cs.isEmpty then some []
  else
    (splitOnChar ':' cs).foldr (fun g acc =>
      match parseHexGroup g, acc with
      | some v, some vs => some (v :: vs)
      | _, _ => none) (some [])

/-- Parse an IPv6 literal into its eight 16-bit groups.  A single `::`
may stand for a run of zero groups; the embedded-IPv4 tail form
(`::ffff:1.2.3.4`) is not modelled. -/
def parseIPv6 (cs : List Char) : Option IP :=
  match findDoubleColon cs with
  | none =>
    match parseGroups cs with
    | some gs => if gs.length == 8 then some (IP.v6 gs) else none
    | none => none
  | some (l, r) =>
    match parseGroups l, parseGroups r with
    | some lg, some rg =>
      if lg.length + rg.length < 8 then
        some (IP.v6 (lg ++ List.replicate (8 - lg.length - rg.length) 0 ++ rg))
      else none
    | _, _ => none

/-- The first `.` or `:` in a literal decides the address family tried,
as in Go `net.ParseIP`. -/
def firstIPSep : List Char → Option Char
  | [] => none
  | c :: rest => if c == '.' || c == ':' then some c else firstIPSep rest

/-- Model of Go `net.ParseIP` on the literal forms used here. -/
def parseIP (s : String) : Option IP :=
  match firstIPSep s.toList with
  | some '.' => parseIPv4 s.toList
  | some ':' => parseIPv6 s.toList
  | _ => none

/-- `To4`: the IPv4 form of an address, when it has one (IPv4 itself, or
an IPv4-mapped IPv6 address `::ffff:a.b.c.d`). -/
def toV4 : IP → Option IP
  | IP.v4 a b c d => some (IP.v4 a b c d)
  | IP.v6 [0, 0, 0, 0, 0, 65535, hi, lo] =>
    some (IP.v4 (hi / 256) (hi % 256) (lo / 256) (lo % 256))
  | _ => none

/-- Lowercase hexadecimal rendering of a group. -/
def natToHex (n : Nat) : String := (Nat.toDigits 16 n).asString

/-- Length of the leading run of zero groups. -/
def zeroRunLen : List Nat → Nat
  | 0 :: rest => zeroRunLen rest + 1
  | _ => 0

/-- Best (leftmost-longest) zero run over all suffixes: start index and
length of the longest run of zero groups (leftmost on ties). -/
def bestZeroRunAux : List Nat → Nat → Nat × Nat → Nat × Nat
  | [], _, acc => acc
  | l@(_ :: rest), i, (bs, bl) =>
    let r := zeroRunLen l
    bestZeroRunAux rest (i + 1) (if r > bl then (i, r) else (bs, bl))

/-- Best zero run of a group list. -/
def bestZeroRun (gs : List Nat) : Nat × Nat := bestZeroRunAux gs 0 (0, 0)

/-- Join groups with colons, in lowercase hex without leading zeros. -/
def joinColon (gs : List Nat) : String :=
  String.intercalate ":" (gs.map natToHex)

/-- Canonical IPv6 text: the longest run of two or more zero groups
(leftmost on ties) is compressed to `::`. -/
def v6Render (gs : List Nat) : String :=
  let (s, l) := bestZeroRun gs
  if l ≥ 2 then joinColon (gs.take s) ++ "::" ++ joinColon (gs.drop (s + l))
  else joinColon gs

/-- Model of Go `net.IP.String`: dotted quad whenever the address has an
IPv4 form, compressed lowercase hex groups otherwise. -/
def ipString (ip : IP) : String :=
  match toV4 ip with
  | some (IP.v4 a b c d) =>
    toString a ++ "." ++ toString b ++ "." ++ toString c ++ "." ++ toString d
  | _ =>
    match ip with
    | IP.v6 gs => v6Render gs
    | IP.v4 a b c d =>
      toString a ++ "." ++ toString b ++ "." ++ toString c ++ "." ++ toString d

/-- Model of Go `net.IPAddr` (the zone field, unused here, is omitted). -/
structure IPAddr where
  ip : IP
  deriving DecidableEq, Repr

/-- `(*net.IPAddr).Network()` is the constant `"ip"`. -/
def ipAddrNetwork (_ : IPAddr) : String := "ip"

/-- `(*net.IPAddr).String()`: the text of the IP. -/
def ipAddrString (a : IPAddr) : String := ipString a.ip

/-- Model of `net.ResolveIPAddr(network, address)` restricted to IP
literals: the literal is parsed and kept only when it has the family
the network name demands (`"ip4"` requires an IPv4 form, `"ip6"`
requires an address with no IPv4 form).  Host-name DNS resolution is
outside the model and is treated as a resolution failure, as in an
offline environment. -/
def resolveIPAddr (network address : String) : Option IPAddr :=
  match parseIP address with
  | some ip =>
    if network == "ip4" then
      match toV4 ip with
      | some ip4 => some ⟨ip4⟩
      | none => none
    else if network == "ip6" then
      match toV4 ip with
      | some _ => none
      | none => some ⟨ip⟩
    else none
  | none => none

/-! ## `RemoteAddress` (`types.go`) -/

/-- `RemoteAddress` of `types.go` (Go fields `Type`, `Address`,
`IPAddr`); `ipAddr` is the resolved address, `none` until decode
succeeds (a nil pointer in Go). -/
structure RemoteAddress where
  rtype : String
  address : String
  ipAddr : Option IPAddr
  deriving DecidableEq, Repr

/-- The zero `RemoteAddress`. -/
def remoteAddressZero : RemoteAddress := ⟨"", "", none⟩

/-- Model of `RemoteAddress.UnmarshalJSON` (`types.go`), taking the
`type` and `address` strings decoded from the input object.  The alias
trick writes both fields into the receiver before the switch; `"v4"`
resolves against network `"ip4"`, `"v6"` against `"ip6"` (wrapping the
resolver failure on error — note the source misspells "failde" in the
v4 branch), and any other type value is reported by name. -/
def remoteAddressUnmarshalJSON (ra : RemoteAddress) (rtype address : String) :
    RemoteAddress × Option GoErr :=
  let ra' : RemoteAddress := { ra with rtype := rtype, address := address }
  if rtype == "v4" then
    match resolveIPAddr "ip4" address with
    | some a => ({ ra' with ipAddr := some a }, none)
    | none => (ra', some (GoErr.wrap "kenall: failde to resolve IP address: "
        (GoErr.fmtErr "lookup failure")))
  else if rtype == "v6" then
    match resolveIPAddr "ip6" address with
    | some a => ({ ra' with ipAddr := some a }, none)
    | none => (ra', some (GoErr.wrap "kenall: failed to resolve IP address: "
        (GoErr.fmtErr "lookup failure")))
  else
    (ra', some (GoErr.fmtErr
      ("kenall: undefined type of RemoteAddress, type = " ++ rtype)))

/-- `RemoteAddress.Network` (`types.go`): delegates to the resolved
`IPAddr` (nil dereference, modelled as `none`, if unresolved). -/
def remoteAddressNetwork (ra : RemoteAddress) : Option String :=
  ra.ipAddr.map ipAddrNetwork

/-- `RemoteAddress.String` (`types.go`): delegates to the resolved
`IPAddr`. -/
def remoteAddressString (ra : RemoteAddress) : Option String :=
  ra.ipAddr.map ipAddrString

/-! ## `Holiday` (`types.go`) -/

/-- The unexported wire struct `holiday` of `types.go`, with JSON fields
`title`, `date`, `day_of_week`, `day_of_week_text`. -/
structure HolidayWire where
  title : String
  date : String
  dayOfWeek : Int
  dayOfWeekText : String
  deriving DecidableEq, Repr

/-- `Holiday` of `types.go`: a title and an embedded `time.Time`. -/
structure Holiday where
  title : String
  time : GoTime
  deriving DecidableEq, Repr

/-- Model of `Holiday.UnmarshalJSON` (`types.go`), taking the decoded
wire record.  The `date` field is parsed with layout `2006-01-02` in the
fixed UTC+9 zone `jst` and assigned to the embedded time (on parse
failure the multiple-assignment still stores the zero time and the
title is left untouched); the wire `day_of_week` and `day_of_week_text`
fields are never consulted. -/
def holidayUnmarshalJSON (h : Holiday) (w : HolidayWire) :
    Holiday × Option GoErr :=
  match parseDate jstOffset w.date with
  | some t => ({ title := w.title, time := t }, none)
  | none => ({ h with time := goTimeZero },
      some (GoErr.wrap "kenall: failed to parse Holiday: "
        (GoErr.fmtErr "parsing time as 2006-01-02: cannot parse input")))

/-- Model of `Holiday.MarshalJSON` (`types.go`): the wire record is
rebuilt from the stored value — `date` by formatting the stored time,
`day_of_week` as `int(h.Weekday())` and `day_of_week_text` as
`strings.ToLower(h.Weekday().String())`. -/
def holidayMarshalJSON (h : Holiday) : HolidayWire :=
  { title := h.title
    date := goFormatDate h.time
    dayOfWeek := Int.ofNat (goWeekday h.time)
    dayOfWeekText := asciiLower (weekdayName (goWeekday h.time)) }

/-! ## Response data model (`types.go`) -/

/-- The nested corporation sub-record of `Address` (`types.go`);
`json.Number` fields are carried as strings. -/
structure AddressCorporation where
  name : String
  nameKana : String
  blockLot : String
  blockLotNum : NullString
  postOffice : String
  codeType : String
  deriving Repr

/-- `Address` of `types.go`. -/
structure Address where
  jisx0402 : String
  oldCode : String
  postalCode : String
  prefectureKana : String
  cityKana : String
  townKana : String
  townKanaRaw : String
  prefecture : String
  city : String
  town : String
  koaza : String
  kyotoStreet : String
  building : String
  floor : String
  townPartial : Bool
  townAddressedKoaza : Bool
  townChome : Bool
  townMulti : Bool
  townRaw : String
  corporation : AddressCorporation
  deriving Repr

/-- `City` of `types.go`. -/
structure City where
  jisx0402 : String
  prefectureCode : String
  cityCode : String
  prefectureKana : String
  cityKana : String
  prefecture : String
  city : String
  deriving Repr

/-- `Corporation` of `types.go`; `json.Number` fields are carried as
strings. -/
structure Corporation where
  publishedDate : String
  sequenceNumber : String
  corporateNumber : String
  process : String
  correct : String
  updateDate : String
  changeDate : String
  name : String
  nameImageID : NullString
  kind : String
  prefectureName : String
  cityName : String
  streetNumber : String
  town : NullString
  kyotoStreet : NullString
  blockLotNum : NullString
  building : NullString
  floorRoom : NullString
  addressImageID : NullString
  jisx0402 : String
  postCode : String
  addressOutside : String
  addressOutsideImageID : NullString
  closeDate : NullString
  closeCause : NullString
  successorCorporateNumber : NullString
  changeCause : String
  assignmentDate : String
  enName : String
  enPrefectureName : String
  enAddressLine : NullString
  enAddressOutside : NullString
  furigana : String
  hihyoji : String
  deriving Repr

/-- `Query` of `types.go`. -/
structure Query where
  q : NullString
  t : NullString
  prefecture : NullString
  county : NullString
  city : NullString
  cityWard : NullString
  town : NullString
  kyotoStreet : NullString
  blockLotNum : NullString
  building : NullString
  floorRoom : NullString
  deriving Repr

/-- `BusinessDay`: a date plus the legal-holiday flag, as constructed
client-side by `GetBusinessDays` (`client.go`). -/
structure BusinessDay where
  legalHoliday : Bool
  time : GoTime
  deriving DecidableEq, Repr

/-! ## Client, dispatcher and public operations (`client.go`) -/

/-- `Client` of `client.go` (the `*http.Client` transport is reached
through the `DoResult` exchange values instead of being stored). -/
structure Client where
  endpoint : String
  token : String
  deriving DecidableEq, Repr

/-- The default endpoint constant `Endpoint`. -/
def defaultEndpoint : String := "https://api.kenall.jp/v1"

/-- An in-memory HTTP request descriptor as built by
`http.NewRequestWithContext` in the operations: a method and a URL
string (no body is ever attached). -/
structure Request where
  method : String
  url : String
  deriving DecidableEq, Repr

/-- Outcome of one HTTP exchange as seen by `sendRequest`: either
`cli.HTTPClient.Do` failed with an error, or a response arrived with a
status code and — consumed only on status 200 — the result of JSON
decoding the body into the caller-supplied shape. -/
inductive DoResult (α : Type) where
  | failure (e : GoErr)
  | response (status : Nat) (body : Except String α)

/-- Message text of `errFailedGenerateRequestFormat` (`client.go`). -/
def errFailedGenerateRequestMsg : String :=
  "kenall: failed to generate an http request: "

/-- Message text of `errFailedRequestFormat` (`client.go`). -/
def errFailedRequestMsg : String :=
  "kenall: failed to send a request for kenall service: "

/-- Timeout wrap text of `ErrTimeout` (`errors.go`). -/
def timeoutMsg : String := "kenall: request timeout: "

/-- Generic transport wrap text of `sendRequest` (`client.go`). -/
def transportFailMsg : String :=
  "kenall: failed to do http client with a request for kenall service: "

/-- Decode wrap text of `sendRequest` (`client.go`). -/
def decodeFailMsg : String := "kenall: failed to decode to response: "

/-- The default-branch status message of `sendRequest` (`client.go`). -/
def unregisteredStatusMsg (status : Nat) : String :=
  "kenall: not registered in the error handling, http status code = " ++
    toString status

/-- Model of `(*Client).sendRequest` (`client.go`).  A transport failure
is classified: context deadline / timeout errors become the `ErrTimeout`
wrap, anything else a generic transport wrap.  On a response, the status
code is dispatched: 200 decodes the body (wrapping a decode failure),
401/402/403/404/405/500 return the corresponding sentinel, and any other
status yields the formatted non-sentinel error carrying the code. -/
def sendRequest {α : Type} (r : DoResult α) : Except GoErr α :=
  match r with
  | DoResult.failure e =>
    if errorsIs e GoErr.deadlineExceeded || osIsTimeout e then
      Except.error (GoErr.wrap timeoutMsg e)
    else
      Except.error (GoErr.wrap transportFailMsg e)
  | DoResult.response status body =>
    if status == 200 then
      match body with
      | Except.ok a => Except.ok a
      | Except.error m =>
        Except.error (GoErr.wrap decodeFailMsg (GoErr.fmtErr m))
    else if status == 401 then Except.error GoErr.unauthorized
    else if status == 402 then Except.error GoErr.paymentRequired
    else if status == 403 then Except.error GoErr.forbidden
    else if status == 404 then Except.error GoErr.notFound
    else if status == 405 then Except.error GoErr.methodNotAllowed
    else if status == 500 then Except.error GoErr.internalServerError
    else Except.error (GoErr.fmtErr (unregisteredStatusMsg status))

/-- `GetAddressResponse` (`client.go`). -/
structure GetAddressResponse where
  version : GoTime
  addresses : List Address
  deriving Repr

/-- `GetCityResponse` (`client.go`). -/
structure GetCityResponse where
  version : GoTime
  cities : List City
  deriving Repr

/-- `GetCorporationResponse` (`client.go`); the `data` field is a
pointer in Go, hence optional. -/
structure GetCorporationResponse where
  version : GoTime
  corporation : Option Corporation
  deriving Repr

/-- `GetWhoamiResponse` (`client.go`). -/
structure GetWhoamiResponse where
  remoteAddress : Option RemoteAddress
  deriving Repr

/-- `GetHolidaysResponse` (`client.go`). -/
structure GetHolidaysResponse where
  holidays : List Holiday
  deriving Repr

/-- `GetNormalizeAddressResponse` (`client.go`). -/
structure GetNormalizeAddressResponse where
  version : GoTime
  query : Query
  deriving Repr

/-- `GetBusinessDaysResponse` (`client.go`). -/
structure GetBusinessDaysResponse where
  businessDay : BusinessDay
  deriving DecidableEq, Repr

/-- Model of `(*Client).GetAddress` (`client.go`).  Returns the request
that was built (`none` when validation short-circuits before any
network activity) together with the result.  Validation: `strconv.Atoi`
must succeed and the byte length must be exactly 7; else
`ErrInvalidArgument`.  The URL appends the postal code verbatim to
`/postalcode/`, and a dispatcher error is wrapped with
`errFailedRequestFormat`. -/
def GetAddress (cli : Client) (postalCode : String)
    (r : DoResult GetAddressResponse) :
    Option Request × Except GoErr GetAddressResponse :=
  if !atoiOk postalCode || postalCode.utf8ByteSize != 7 then
    (none, Except.error GoErr.invalidArgument)
  else
    let req : Request := ⟨"GET", cli.endpoint ++ "/postalcode/" ++ postalCode⟩
    match sendRequest r with
    | Except.error e =>
      (some req, Except.error (GoErr.wrap errFailedRequestMsg e))
    | Except.ok res => (some req, Except.ok res)

/-- Model of `(*Client).GetCity` (`client.go`): like `GetAddress` with a
2-byte prefecture code and path `/cities/`. -/
def GetCity (cli : Client) (prefectureCode : String)
    (r : DoResult GetCityResponse) :
    Option Request × Except GoErr GetCityResponse :=
  if !atoiOk prefectureCode || prefectureCode.utf8ByteSize != 2 then
    (none, Except.error GoErr.invalidArgument)
  else
    let req : Request := ⟨"GET", cli.endpoint ++ "/cities/" ++ prefectureCode⟩
    match sendRequest r with
    | Except.error e =>
      (some req, Except.error (GoErr.wrap errFailedRequestMsg e))
    | Except.ok res => (some req, Except.ok res)

/-- Model of `(*Client).GetCorporation` (`client.go`): like `GetAddress`
with a 13-byte corporate number and path `/houjinbangou/`. -/
def GetCorporation (cli : Client) (corporateNumber : String)
    (r : DoResult GetCorporationResponse) :
    Option Request × Except GoErr GetCorporationResponse :=
  if !atoiOk corporateNumber || corporateNumber.utf8ByteSize != 13 then
    (none, Except.error GoErr.invalidArgument)
  else
    let req : Request := ⟨"GET", cli.endpoint ++ "/houjinbangou/" ++ corporateNumber⟩
    match sendRequest r with
    | Except.error e =>
      (some req, Except.error (GoErr.wrap errFailedRequestMsg e))
    | Except.ok res => (some req, Except.ok res)

/-- Model of `(*Client).GetWhoami` (`client.go`): no validation, path
`/whoami`. -/
def GetWhoami (cli : Client) (r : DoResult GetWhoamiResponse) :
    Option Request × Except GoErr GetWhoamiResponse :=
  let req : Request := ⟨"GET", cli.endpoint ++ "/whoami"⟩
  match sendRequest r with
  | Except.error e =>
    (some req, Except.error (GoErr.wrap errFailedRequestMsg e))
  | Except.ok res => (some req, Except.ok res)

/-- Model of the unexported `(*Client).getHolidays` (`client.go`): the
already-encoded query string is appended after `/holidays?`. -/
def getHolidays (cli : Client) (encodedQuery : String)
    (r : DoResult GetHolidaysResponse) :
    Option Request × Except GoErr GetHolidaysResponse :=
  let req : Request := ⟨"GET", cli.endpoint ++ "/holidays?" ++ encodedQuery⟩
  match sendRequest r with
  | Except.error e =>
    (some req, Except.error (GoErr.wrap errFailedRequestMsg e))
  | Except.ok res => (some req, Except.ok res)

/-- Model of `(*Client).GetHolidays` (`client.go`): a nil `url.Values`
encodes to the empty query string. -/
def GetHolidays (cli : Client) (r : DoResult GetHolidaysResponse) :
    Option Request × Except GoErr GetHolidaysResponse :=
  getHolidays cli "" r

/-- Model of `(*Client).GetHolidaysByYear` (`client.go`):
`url.Values{"year": ...}.Encode()` with `strconv.Itoa year`. -/
def GetHolidaysByYear (cli : Client) (year : Int)
    (r : DoResult GetHolidaysResponse) :
    Option Request × Except GoErr GetHolidaysResponse :=
  getHolidays cli ("year=" ++ toString year) r

/-- Model of `(*Client).GetHolidaysByPeriod` (`client.go`): the `from`
and `to` dates are formatted with `RFC3339DateFormat`; `Encode` sorts
the keys. -/
def GetHolidaysByPeriod (cli : Client) (from_ to_ : GoTime)
    (r : DoResult GetHolidaysResponse) :
    Option Request × Except GoErr GetHolidaysResponse :=
  getHolidays cli ("from=" ++ goFormatDate from_ ++ "&to=" ++ goFormatDate to_) r

/-- Model of `(*Client).GetNormalizeAddress` (`client.go`): the address
is trimmed with `strings.TrimSpace`; an empty trimmed address is
`ErrInvalidArgument` before any request exists; otherwise the trimmed
text is appended verbatim — with no URL encoding — after
`/postalcode/?t=`. -/
def GetNormalizeAddress (cli : Client) (address : String)
    (r : DoResult GetNormalizeAddressResponse) :
    Option Request × Except GoErr GetNormalizeAddressResponse :=
  let address := trimSpace address
  if address == "" then (none, Except.error GoErr.invalidArgument)
  else
    let req : Request := ⟨"GET", cli.endpoint ++ "/postalcode/?t=" ++ address⟩
    match sendRequest r with
    | Except.error e =>
      (some req, Except.error (GoErr.wrap errFailedRequestMsg e))
    | Except.ok res => (some req, Except.ok res)

/-- Model of `(*Client).GetBusinessDays` (`client.go`): a zero date is
`ErrInvalidArgument` before any request exists; otherwise the request
carries the formatted date and, on success, the response is assembled
client-side from the boolean `result` wire field and the input date. -/
def GetBusinessDays (cli : Client) (date : GoTime) (r : DoResult Bool) :
    Option Request × Except GoErr GetBusinessDaysResponse :=
  if date.isZero then (none, Except.error GoErr.invalidArgument)
  else
    let req : Request :=
      ⟨"GET", cli.endpoint ++ "/businessdays/check?date=" ++ goFormatDate date⟩
    match sendRequest r with
    | Except.error e =>
      (some req, Except.error (GoErr.wrap errFailedRequestMsg e))
    | Except.ok result =>
      (some req, Except.ok ⟨⟨result, date⟩⟩)

/-! ## URL query interpretation (for the normalize-address URL)

Modelled from the spec: how a URL string is interpreted by Go's
`net/url` — the fragment starts at the first `#`, the raw query is what
follows the first `?` before the fragment, and `url.Values.Get` returns
the first `key=value` pair after splitting on `&` and percent/plus
unescaping.  Used to state what query parameter a built URL actually
carries. -/

/-- Characters before the first occurrence of `stop`. -/
def takeUntilChar (stop : Char) : List Char → List Char
  | [] => []
  | c :: rest => if c == stop then [] else c :: takeUntilChar stop rest

/-- Characters after the first occurrence of `stop` (everything, if
`stop` does not occur). -/
def dropThroughChar (stop : Char) : List Char → List Char
  | [] => []
  | c :: rest => if c == stop then rest else dropThroughChar stop rest

/-- The raw query of a URL string: after the first `?`, before any
`#` fragment. -/
def urlRawQuery (u : String) : List Char :=
  takeUntilChar '#' (dropThroughChar '?' (takeUntilChar '#' u.toList))

/-- Query unescaping: `+` becomes a space and `%HH` a code point. -/
def queryUnescape : List Char → Option (List Char)
  | [] => some []
  | '%' :: h1 :: h2 :: rest =>
    match hexVal h1, hexVal h2, queryUnescape rest with
    | some a, some b, some tail => some (Char.ofNat (a * 16 + b) :: tail)
    | _, _, _ => none
  | '%' :: _ => none
  | '+' :: rest => (queryUnescape rest).map (' ' :: ·)
  | c :: rest => (queryUnescape rest).map (c :: ·)

/-- The first value bound to `key` in a raw query string, à la
`url.ParseQuery` + `Values.Get`. -/
def queryGet (rawQuery : List Char) (key : String) : Option String :=
  ((splitOnChar '&' rawQuery).filterMap fun kv =>
    let k := takeUntilChar '=' kv
    let v := if kv.contains '=' then dropThroughChar '=' kv else []
    match queryUnescape k, queryUnescape v with
    | some k', some v' =>
      if k'.asString == key then some v'.asString else none
    | _, _ => none).head?

/-! ## Claim theorems -/

/-- `errors.Is` on a `fmt` wrap: identity there, then the cause chain. -/
theorem errorsIs_wrap (m : String) (e t : GoErr) :
    errorsIs (GoErr.wrap m e) t = (GoErr.wrap m e == t || errorsIs e t) := rfl

/-- A client value used to instantiate witnesses. -/
def testClient : Client := ⟨defaultEndpoint, "opencollector"⟩

/-- C1: `sendRequest` maps a 200 response by decoding the body into the
caller-supplied shape; 401, 402, 403, 404, 405 and 500 to the
`Unauthorized`, `PaymentRequired`, `Forbidden`, `NotFound`,
`MethodNotAllowed` and `InternalServerError` sentinels; and every other
status to a non-sentinel formatted error whose message contains the
numeric status code.  The sentinel is recoverable by `errors.Is`
identity through every public operation: a 401 response makes each
operation return the `errFailedRequestFormat` wrap of the `Unauthorized`
sentinel, and `errors.Is` recovers the sentinel through that wrap. -/
theorem c1_status_dispatch {α : Type} (a : α) (b : Except String α)
    (cli : Client) (status : Nat)
    (hs : status ∉ ([200, 401, 402, 403, 404, 405, 500] : List Nat)) :
    sendRequest (DoResult.response 200 (Except.ok a)) = Except.ok a
    ∧ sendRequest (DoResult.response 401 b) = Except.error GoErr.unauthorized
    ∧ sendRequest (DoResult.response 402 b) = Except.error GoErr.paymentRequired
    ∧ sendRequest (DoResult.response 403 b) = Except.error GoErr.forbidden
    ∧ sendRequest (DoResult.response 404 b) = Except.error GoErr.notFound
    ∧ sendRequest (DoResult.response 405 b) = Except.error GoErr.methodNotAllowed
    ∧ sendRequest (DoResult.response 500 b) = Except.error GoErr.internalServerError
    ∧ sendRequest (DoResult.response status b) =
        Except.error (GoErr.fmtErr (unregisteredStatusMsg status))
    ∧ (∃ pre post, unregisteredStatusMsg status = pre ++ toString status ++ post)
    ∧ (∀ s, s ∈ [GoErr.invalidArgument, GoErr.unauthorized,
          GoErr.paymentRequired, GoErr.forbidden, GoErr.notFound,
          GoErr.methodNotAllowed, GoErr.internalServerError] →
        errorsIs (GoErr.fmtErr (unregisteredStatusMsg status)) s = false)
    ∧ (∀ pc (b2 : Except String GetAddressResponse),
        atoiOk pc = true → pc.utf8ByteSize = 7 →
        (GetAddress cli pc (DoResult.response 401 b2)).2 =
          Except.error (GoErr.wrap errFailedRequestMsg GoErr.unauthorized))
    ∧ (∀ pfc (b2 : Except String GetCityResponse),
        atoiOk pfc = true → pfc.utf8ByteSize = 2 →
        (GetCity cli pfc (DoResult.response 401 b2)).2 =
          Except.error (GoErr.wrap errFailedRequestMsg GoErr.unauthorized))
    ∧ (∀ cn (b2 : Except String GetCorporationResponse),
        atoiOk cn = true → cn.utf8ByteSize = 13 →
        (GetCorporation cli cn (DoResult.response 401 b2)).2 =
          Except.error (GoErr.wrap errFailedRequestMsg GoErr.unauthorized))
    ∧ (∀ b2 : Except String GetWhoamiResponse,
        (GetWhoami cli (DoResult.response 401 b2)).2 =
          Except.error (GoErr.wrap errFailedRequestMsg GoErr.unauthorized))
    ∧ (∀ b2 : Except String GetHolidaysResponse,
        (GetHolidays cli (DoResult.response 401 b2)).2 =
          Except.error (GoErr.wrap errFailedRequestMsg GoErr.unauthorized))
    ∧ (∀ (y : Int) (b2 : Except String GetHolidaysResponse),
        (GetHolidaysByYear cli y (DoResult.response 401 b2)).2 =
          Except.error (GoErr.wrap errFailedRequestMsg GoErr.unauthorized))
    ∧ (∀ (f t : GoTime) (b2 : Except String GetHolidaysResponse),
        (GetHolidaysByPeriod cli f t (DoResult.response 401 b2)).2 =
          Except.error (GoErr.wrap errFailedRequestMsg GoErr.unauthorized))
    ∧ (∀ addr (b2 : Except String GetNormalizeAddressResponse),
        trimSpace addr ≠ "" →
        (GetNormalizeAddress cli addr (DoResult.response 401 b2)).2 =
          Except.error (GoErr.wrap errFailedRequestMsg GoErr.unauthorized))
    ∧ (∀ (d : GoTime) (b2 : Except String Bool),
        d.isZero = false →
        (GetBusinessDays cli d (DoResult.response 401 b2)).2 =
          Except.error (GoErr.wrap errFailedRequestMsg GoErr.unauthorized))
    ∧ errorsIs (GoErr.wrap errFailedRequestMsg GoErr.unauthorized)
        GoErr.unauthorized = true := by
  simp only [List.mem_cons, List.mem_singleton] at hs
  push_neg at hs
  obtain ⟨h200, h401, h402, h403, h404, h405, h500⟩ := hs
  refine ⟨rfl, rfl, rfl, rfl, rfl, rfl, rfl, ?_, ?_, ?_, ?_, ?_, ?_, ?_, ?_, ?_, ?_, ?_, ?_, rfl⟩
  · simp [sendRequest, h200, h401, h402, h403, h404, h405, h500]
  · exact ⟨"kenall: not registered in the error handling, http status code = ", "",
      by simp [unregisteredStatusMsg]⟩
  · intro s hsent
    fin_cases hsent <;> rfl
  · intro pc b2 hv hl
    simp [GetAddress, hv, hl, sendRequest]
  · intro pfc b2 hv hl
    simp [GetCity, hv, hl, sendRequest]
  · intro cn b2 hv hl
    simp [GetCorporation, hv, hl, sendRequest]
  · intro b2
    simp [GetWhoami, sendRequest]
  · intro b2
    simp [GetHolidays, getHolidays, sendRequest]
  · intro y b2
    simp [GetHolidaysByYear, getHolidays, sendRequest]
  · intro f t b2
    simp [GetHolidaysByPeriod, getHolidays, sendRequest]
  · intro addr b2 hne
    simp only [GetNormalizeAddress]
    rw [if_neg (by simpa using hne)]
    simp [sendRequest]
  · intro d b2 hz
    simp [GetBusinessDays, hz, sendRequest]

/-- Witness for C1 at concrete inputs: status 418 is unmapped and its
error message contains "418"; a 401 response to `GetAddress` with the
valid postal code "1008105" is recovered as the `Unauthorized` sentinel
by `errors.Is`. -/
theorem c1_status_dispatch_witness :
    sendRequest (α := Bool) (DoResult.response 418 (Except.error "boom")) =
      Except.error (GoErr.fmtErr (unregisteredStatusMsg 418))
    ∧ unregisteredStatusMsg 418 =
        "kenall: not registered in the error handling, http status code = 418"
    ∧ errorsIs (GoErr.fmtErr (unregisteredStatusMsg 418)) GoErr.unauthorized = false
    ∧ (GetAddress testClient "1008105"
        (DoResult.response 401 (Except.error "ignored"))).2 =
      Except.error (GoErr.wrap errFailedRequestMsg GoErr.unauthorized)
    ∧ errorsIs (GoErr.wrap errFailedRequestMsg GoErr.unauthorized)
        GoErr.unauthorized = true := by
  have h := c1_status_dispatch (α := Bool) true (Except.error "boom")
    testClient 418 (by decide)
  obtain ⟨-, -, -, -, -, -, -, h418, -, hsent, hga, -⟩ := h
  refine ⟨h418, by decide, hsent GoErr.unauthorized (by simp), ?_, rfl⟩
  exact hga "1008105" (Except.error "ignored") (by decide) (by decide)

/-- C7: when `cli.HTTPClient.Do` fails, `sendRequest` classifies the
failure: a context deadline / timeout error (in the sense of
`errors.Is(err, context.DeadlineExceeded) || os.IsTimeout(err)`) is
returned as the `ErrTimeout` wrap of the underlying cause; any other
transport failure is returned as the generic transport wrap of the
cause, which is never the timeout kind (its message prefix differs from
the timeout wrap for every possible cause). -/
theorem c7_timeout_classification {α : Type} (e : GoErr) :
    ((errorsIs e GoErr.deadlineExceeded || osIsTimeout e) = true →
      sendRequest (α := α) (DoResult.failure e) =
        Except.error (GoErr.wrap timeoutMsg e))
    ∧ ((errorsIs e GoErr.deadlineExceeded || osIsTimeout e) = false →
      sendRequest (α := α) (DoResult.failure e) =
        Except.error (GoErr.wrap transportFailMsg e)
      ∧ ∀ cause, GoErr.wrap transportFailMsg e ≠ GoErr.wrap timeoutMsg cause) := by
  constructor
  · intro h
    simp [sendRequest, h]
  · intro h
    refine ⟨by simp [sendRequest, h], ?_⟩
    intro cause hcontra
    injection hcontra with h1 h2
    exact absurd h1 (by decide)

/-- Witness for C7: a `*url.Error` whose `Timeout()` reports true (a
context expiring mid-flight) is classified as the timeout wrap, while a
plain connection error gets the generic transport wrap. -/
theorem c7_timeout_classification_witness :
    sendRequest (α := Bool)
        (DoResult.failure (GoErr.urlError true GoErr.deadlineExceeded)) =
      Except.error (GoErr.wrap timeoutMsg
        (GoErr.urlError true GoErr.deadlineExceeded))
    ∧ sendRequest (α := Bool)
        (DoResult.failure (GoErr.fmtErr "connection refused")) =
      Except.error (GoErr.wrap transportFailMsg
        (GoErr.fmtErr "connection refused"))
    ∧ GoErr.wrap transportFailMsg (GoErr.fmtErr "connection refused") ≠
        GoErr.wrap timeoutMsg GoErr.deadlineExceeded := by
  have h1 := (c7_timeout_classification (α := Bool)
    (GoErr.urlError true GoErr.deadlineExceeded)).1 (by decide)
  have h2 := (c7_timeout_classification (α := Bool)
    (GoErr.fmtErr "connection refused")).2 (by decide)
  exact ⟨h1, h2.1, h2.2 GoErr.deadlineExceeded⟩


/-- A decimal digit character is one UTF-8 byte. -/
theorem utf8Size_one_of_digit (c : Char) (h : isDigitChar c = true) :
    c.utf8Size = 1 := by
  simp only [isDigitChar, Bool.and_eq_true, decide_eq_true_eq] at h
  have hv : c.val.toNat ≤ 57 := h.2
  unfold Char.utf8Size
  rw [if_pos]
  rw [UInt32.le_def, BitVec.le_def]
  simp only [UInt32.toNat] at hv ⊢
  simp
  omega

/-- Code-point bounds of a decimal digit character. -/
theorem digit_toNat_bounds (c : Char) (h : isDigitChar c = true) :
    48 ≤ c.toNat ∧ c.toNat ≤ 57 := by
  simpa only [isDigitChar, Bool.and_eq_true, decide_eq_true_eq] using h

/-- For an all-digit string the Go byte length (`len`) equals the
character count. -/
theorem utf8ByteSize_of_digits (s : String)
    (h : s.toList.all isDigitChar = true) :
    s.utf8ByteSize = s.toList.length := by
  obtain ⟨cs⟩ := s
  replace h : cs.all isDigitChar = true := h
  show String.utf8Len cs = cs.length
  induction cs with
  | nil => rfl
  | cons c rest ih =>
    simp only [List.all_cons, Bool.and_eq_true] at h
    rw [String.utf8Len_cons, utf8Size_one_of_digit c h.1, ih h.2]
    rfl

/-- Bound for the digit-folding accumulator. -/
theorem digitsVal_foldl_lt (cs : List Char) (h : cs.all isDigitChar = true) :
    ∀ acc : Nat,
      cs.foldl (fun acc c => 10 * acc + digitVal c) acc <
        (acc + 1) * 10 ^ cs.length := by
  induction cs with
  | nil => intro acc; simp
  | cons c rest ih =>
    intro acc
    simp only [List.all_cons, Bool.and_eq_true] at h
    have hd : digitVal c ≤ 9 := by
      have := digit_toNat_bounds c h.1
      unfold digitVal
      omega
    calc (c :: rest).foldl (fun acc c => 10 * acc + digitVal c) acc
        = rest.foldl (fun acc c => 10 * acc + digitVal c)
            (10 * acc + digitVal c) := rfl
      _ < (10 * acc + digitVal c + 1) * 10 ^ rest.length := ih h.2 _
      _ ≤ ((acc + 1) * 10) * 10 ^ rest.length := by
          apply Nat.mul_le_mul_right
          omega
      _ = (acc + 1) * 10 ^ (c :: rest).length := by
          simp only [List.length_cons, Nat.pow_succ]
          ring

/-- An all-digit list has value below `10 ^ length`. -/
theorem digitsVal_lt (cs : List Char) (h : cs.all isDigitChar = true) :
    digitsVal cs < 10 ^ cs.length := by
  simpa [digitsVal] using digitsVal_foldl_lt cs h 0

/-- Every non-empty all-digit string of at most 18 characters is
accepted by `strconv.Atoi`. -/
theorem atoiOk_of_digits (s : String) (h : isAllDigits s = true)
    (hl : s.toList.length ≤ 18) : atoiOk s = true := by
  have hne : s.toList.isEmpty = false := by
    simp only [isAllDigits, Bool.and_eq_true, Bool.not_eq_eq_eq_not,
      Bool.not_true] at h
    exact h.1
  have hall : s.toList.all isDigitChar = true := by
    simp only [isAllDigits, Bool.and_eq_true] at h
    exact h.2
  unfold atoiOk
  cases hcs : s.toList with
  | nil =>
    rw [hcs] at hne
    simp at hne
  | cons c rest =>
    rw [hcs] at hall hl
    simp only [List.all_cons, Bool.and_eq_true] at hall
    have hplus : (c == '+') = false := by
      cases hc : (c == '+')
      · rfl
      · rw [eq_of_beq hc] at hall
        exact absurd hall.1 (by decide)
    have hminus : (c == '-') = false := by
      cases hc : (c == '-')
      · rfl
      · rw [eq_of_beq hc] at hall
        exact absurd hall.1 (by decide)
    have hbound : digitsVal (c :: rest) ≤ 2 ^ 63 - 1 := by
      have h1 : digitsVal (c :: rest) < 10 ^ (c :: rest).length := by
        apply digitsVal_lt
        simp [hall.1, hall.2]
      have h2 : (10 : Nat) ^ (c :: rest).length ≤ 10 ^ 18 :=
        Nat.pow_le_pow_right (by omega) (by simpa using hl)
      have h3 : (10 : Nat) ^ 18 ≤ 2 ^ 63 - 1 := by norm_num
      omega
    have h4 : (2 : Nat) ^ 63 - 1 = 9223372036854775807 := by norm_num
    simp [hplus, hminus, hall.1, hall.2]
    omega

/-- C2 counterexample: the input `"+123456"` is not all-ASCII-digits yet
has byte length 7, and `GetAddress` does not return the
`InvalidArgument` sentinel for it — `strconv.Atoi` accepts the leading
sign, so validation passes and a request is built (a network call is
made), falsifying the claim that every non-all-digit input of length 7
is rejected. -/
theorem c2_validation_counterexample :
    isAllDigits "+123456" = false
    ∧ ("+123456" : String).utf8ByteSize = 7
    ∧ (GetAddress testClient "+123456"
        (DoResult.failure (GoErr.fmtErr "net down"))).2 ≠
        Except.error GoErr.invalidArgument
    ∧ (GetAddress testClient "+123456"
        (DoResult.failure (GoErr.fmtErr "net down"))).1 =
        some ⟨"GET", "https://api.kenall.jp/v1/postalcode/+123456"⟩ := by
  refine ⟨by decide, by decide, ?_, rfl⟩
  intro h
  rw [show (GetAddress testClient "+123456"
      (DoResult.failure (GoErr.fmtErr "net down"))).2 =
      Except.error (GoErr.wrap errFailedRequestMsg
        (GoErr.wrap transportFailMsg (GoErr.fmtErr "net down"))) from rfl] at h
  simp only [Except.error.injEq] at h
  exact absurd h (by decide)

/-- C2 (amended): each lookup operation rejects exactly the inputs that
`strconv.Atoi` rejects — an optionally *signed* digit run is accepted,
not only all-digit strings — or whose byte length is not the required
7 / 2 / 13, returning the `InvalidArgument` sentinel with no request
built; every accepted string yields a request whose URL ends in that
exact string, and in particular every all-digit string of the correct
length is accepted. -/
theorem c2_validation (cli : Client) (s : String)
    (rA : DoResult GetAddressResponse) (rC : DoResult GetCityResponse)
    (rK : DoResult GetCorporationResponse) :
    (¬(atoiOk s = true ∧ s.utf8ByteSize = 7) →
      GetAddress cli s rA = (none, Except.error GoErr.invalidArgument))
    ∧ (atoiOk s = true → s.utf8ByteSize = 7 →
      ∃ req, (GetAddress cli s rA).1 = some req ∧ req.method = "GET" ∧
        req.url = cli.endpoint ++ "/postalcode/" ++ s)
    ∧ (¬(atoiOk s = true ∧ s.utf8ByteSize = 2) →
      GetCity cli s rC = (none, Except.error GoErr.invalidArgument))
    ∧ (atoiOk s = true → s.utf8ByteSize = 2 →
      ∃ req, (GetCity cli s rC).1 = some req ∧ req.method = "GET" ∧
        req.url = cli.endpoint ++ "/cities/" ++ s)
    ∧ (¬(atoiOk s = true ∧ s.utf8ByteSize = 13) →
      GetCorporation cli s rK = (none, Except.error GoErr.invalidArgument))
    ∧ (atoiOk s = true → s.utf8ByteSize = 13 →
      ∃ req, (GetCorporation cli s rK).1 = some req ∧ req.method = "GET" ∧
        req.url = cli.endpoint ++ "/houjinbangou/" ++ s)
    ∧ (isAllDigits s = true → s.utf8ByteSize ≤ 18 → atoiOk s = true) := by
  have hv : ∀ n : Nat, ¬(atoiOk s = true ∧ s.utf8ByteSize = n) →
      (!atoiOk s || s.utf8ByteSize != n) = true := by
    intro n h
    by_cases h1 : atoiOk s = true
    · have h2 : s.utf8ByteSize ≠ n := fun h2 => h ⟨h1, h2⟩
      simp [h1, h2]
    · simp [h1]
  refine ⟨?_, ?_, ?_, ?_, ?_, ?_, ?_⟩
  · intro h
    simp [GetAddress, hv 7 h]
  · intro h1 h2
    refine ⟨⟨"GET", cli.endpoint ++ "/postalcode/" ++ s⟩, ?_, rfl, rfl⟩
    simp only [GetAddress, h1, h2]
    simp only [Bool.not_true, bne_self_eq_false, Bool.or_self, Bool.false_eq_true,
      if_false]
    cases sendRequest rA <;> rfl
  · intro h
    simp [GetCity, hv 2 h]
  · intro h1 h2
    refine ⟨⟨"GET", cli.endpoint ++ "/cities/" ++ s⟩, ?_, rfl, rfl⟩
    simp only [GetCity, h1, h2]
    simp only [Bool.not_true, bne_self_eq_false, Bool.or_self, Bool.false_eq_true,
      if_false]
    cases sendRequest rC <;> rfl
  · intro h
    simp [GetCorporation, hv 13 h]
  · intro h1 h2
    refine ⟨⟨"GET", cli.endpoint ++ "/houjinbangou/" ++ s⟩, ?_, rfl, rfl⟩
    simp only [GetCorporation, h1, h2]
    simp only [Bool.not_true, bne_self_eq_false, Bool.or_self, Bool.false_eq_true,
      if_false]
    cases sendRequest rK <;> rfl
  · intro hd hl
    apply atoiOk_of_digits s hd
    have hall : s.toList.all isDigitChar = true := by
      simp only [isAllDigits, Bool.and_eq_true] at hd
      exact hd.2
    rw [← utf8ByteSize_of_digits s hall]
    exact hl

/-- Witness for C2 (amended): the all-digit postal code `"1008105"` is
accepted and its request URL ends in it; the non-numeric `"alphabet"`
is rejected with `InvalidArgument` and no request. -/
theorem c2_validation_witness :
    (GetAddress testClient "1008105"
        (DoResult.failure (GoErr.fmtErr "net down"))).1 =
      some ⟨"GET", "https://api.kenall.jp/v1/postalcode/1008105"⟩
    ∧ GetAddress testClient "alphabet"
        (DoResult.failure (GoErr.fmtErr "net down")) =
      (none, Except.error GoErr.invalidArgument)
    ∧ atoiOk "1008105" = true := by
  have h := c2_validation testClient "1008105"
    (DoResult.failure (GoErr.fmtErr "net down"))
    (DoResult.failure (GoErr.fmtErr "net down"))
    (DoResult.failure (GoErr.fmtErr "net down"))
  have hd := h.2.2.2.2.2.2 (by decide) (by decide)
  obtain ⟨req, hr, hm, hu⟩ := h.2.1 (by decide) (by decide)
  have h2 := c2_validation testClient "alphabet"
    (DoResult.failure (GoErr.fmtErr "net down"))
    (DoResult.failure (GoErr.fmtErr "net down"))
    (DoResult.failure (GoErr.fmtErr "net down"))
  refine ⟨?_, h2.1 (by decide), hd⟩
  rw [hr]
  obtain ⟨m, u⟩ := req
  simp only at hm hu
  subst hm
  subst hu
  rfl

/-- A date parsed by `parseDate` carries the offset of the requested
location. -/
theorem parseDate_offset (off : Int) (s : String) (t : GoTime)
    (h : parseDate off s = some t) : t.offset = off := by
  unfold parseDate at h
  cases hc : parseCivilDate s with
  | none => rw [hc] at h; exact absurd h (by simp)
  | some ymd =>
    rw [hc] at h
    have h' : (⟨ymd.1, ymd.2.1, ymd.2.2, 0, off⟩ : GoTime) = t := by
      simpa using h
    rw [← h']

/-- C3: encoding a `Holiday` recomputes `day_of_week` (0 = Sunday ..
6 = Saturday) and `day_of_week_text` (lowercase English weekday name)
from the stored date; decoding parses the `date` field in the fixed
UTC+9 zone and never consults the wire day-of-week fields, so encoding
a decoded holiday dated 2022-01-01 yields `day_of_week = 6` and
`day_of_week_text = "saturday"` whatever day-of-week fields were seen
at decode time. -/
theorem c3_holiday_weekday (h0 : Holiday) (w : HolidayWire) (t : GoTime)
    (hp : parseDate jstOffset w.date = some t) :
    holidayUnmarshalJSON h0 w = (⟨w.title, t⟩, none)
    ∧ t.offset = 9 * 60 * 60
    ∧ (∀ dw dwt,
        holidayUnmarshalJSON h0 { w with dayOfWeek := dw, dayOfWeekText := dwt } =
          holidayUnmarshalJSON h0 w)
    ∧ holidayMarshalJSON (holidayUnmarshalJSON h0 w).1 =
        ⟨w.title, goFormatDate t, Int.ofNat (goWeekday t),
          asciiLower (weekdayName (goWeekday t))⟩
    ∧ (w.date = "2022-01-01" →
        (holidayMarshalJSON (holidayUnmarshalJSON h0 w).1).dayOfWeek = 6
        ∧ (holidayMarshalJSON (holidayUnmarshalJSON h0 w).1).dayOfWeekText =
            "saturday") := by
  have hu : holidayUnmarshalJSON h0 w = (⟨w.title, t⟩, none) := by
    simp [holidayUnmarshalJSON, hp]
  refine ⟨hu, parseDate_offset _ _ _ hp, ?_, ?_, ?_⟩
  · intro dw dwt
    rfl
  · rw [hu]
    rfl
  · intro hdate
    rw [hdate] at hp
    have ht : t = ⟨2022, 1, 1, 0, jstOffset⟩ := by
      rw [show parseDate jstOffset "2022-01-01" =
        some ⟨2022, 1, 1, 0, jstOffset⟩ from by decide] at hp
      exact (Option.some_inj.mp hp).symm
    rw [hu, ht]
    refine ⟨?_, ?_⟩ <;> simp only [holidayMarshalJSON] <;> decide

/-- Witness for C3: the holiday record dated 2022-01-01 (a Saturday),
carrying deliberately wrong wire day-of-week fields (99 and
"friday"), decodes to a UTC+9 date and re-encodes with
`day_of_week = 6` and `day_of_week_text = "saturday"`. -/
theorem c3_holiday_weekday_witness :
    holidayUnmarshalJSON ⟨"", goTimeZero⟩ ⟨"New Year", "2022-01-01", 99, "friday"⟩ =
      (⟨"New Year", ⟨2022, 1, 1, 0, 32400⟩⟩, none)
    ∧ (⟨2022, 1, 1, 0, 32400⟩ : GoTime).offset = 9 * 60 * 60
    ∧ (holidayMarshalJSON
        (holidayUnmarshalJSON ⟨"", goTimeZero⟩
          ⟨"New Year", "2022-01-01", 99, "friday"⟩).1).dayOfWeek = 6
    ∧ (holidayMarshalJSON
        (holidayUnmarshalJSON ⟨"", goTimeZero⟩
          ⟨"New Year", "2022-01-01", 99, "friday"⟩).1).dayOfWeekText =
        "saturday" := by
  have h := c3_holiday_weekday ⟨"", goTimeZero⟩
    ⟨"New Year", "2022-01-01", 99, "friday"⟩ ⟨2022, 1, 1, 0, 32400⟩ (by decide)
  obtain ⟨h1, h2, -, -, h5⟩ := h
  obtain ⟨h6, h7⟩ := h5 rfl
  exact ⟨h1, h2, h6, h7⟩

/-- C4: `Version.UnmarshalJSON` leaves the receiver untouched with no
error on the JSON `null` literal; sets the receiver to the 2020-11-30
UTC date for the token `"2020-11-30"`; and for any other token —
anything the quoted `2006-01-02` layout rejects, such as `"20201130"`
— returns the wrapping decode error and leaves the receiver
untouched. -/
theorem c4_version_unmarshal (v : GoTime) (data : String)
    (h1 : data ≠ "null") (h2 : parseQuotedDate data = none) :
    versionUnmarshalJSON v "null" = (v, none)
    ∧ versionUnmarshalJSON v "\"2020-11-30\"" = (⟨2020, 11, 30, 0, 0⟩, none)
    ∧ versionUnmarshalJSON v data =
        (v, some (GoErr.wrap "kenall: failed to parse date with RFC3339 Date: "
          (GoErr.fmtErr "parsing time as 2006-01-02: cannot parse input")))
    ∧ parseQuotedDate "\"20201130\"" = none := by
  refine ⟨rfl, rfl, ?_, by decide⟩
  unfold versionUnmarshalJSON
  rw [if_neg (by simp [h1]), h2]

/-- Witness for C4 at the dash-less token `"20201130"`: decoding it is
an error that leaves the zero receiver untouched, while `null` and
`"2020-11-30"` behave as claimed. -/
theorem c4_version_unmarshal_witness :
    versionUnmarshalJSON goTimeZero "null" = (goTimeZero, none)
    ∧ versionUnmarshalJSON goTimeZero "\"2020-11-30\"" = (⟨2020, 11, 30, 0, 0⟩, none)
    ∧ versionUnmarshalJSON goTimeZero "\"20201130\"" =
        (goTimeZero, some (GoErr.wrap "kenall: failed to parse date with RFC3339 Date: "
          (GoErr.fmtErr "parsing time as 2006-01-02: cannot parse input"))) := by
  have h := c4_version_unmarshal goTimeZero "\"20201130\"" (by decide) (by decide)
  exact ⟨h.1, h.2.1, h.2.2.1⟩

/-- C5: `NullString.UnmarshalJSON` on a fresh receiver decodes the JSON
`null` literal to the unset zero state with no error; decodes any JSON
string — including the empty string — to `Valid = true` with that
string, whatever the prior receiver state; and returns a decode error
for every other JSON value. -/
theorem c5_nullstring_unmarshal (s : String) (j : JsonValue) (ns : NullString)
    (hstr : ∀ s2, j ≠ JsonValue.str s2) (hnull : j ≠ JsonValue.null) :
    nullStringUnmarshalJSON nullStringZero JsonValue.null = (nullStringZero, none)
    ∧ nullStringUnmarshalJSON ns (JsonValue.str s) = (⟨s, true⟩, none)
    ∧ ∃ e, (nullStringUnmarshalJSON ns j).2 = some e := by
  refine ⟨rfl, rfl, ?_⟩
  cases j with
  | null => exact absurd rfl hnull
  | str s2 => exact absurd rfl (hstr s2)
  | num n => exact ⟨_, rfl⟩
  | boolean b => exact ⟨_, rfl⟩
  | arr => exact ⟨_, rfl⟩
  | obj => exact ⟨_, rfl⟩

/-- Witness for C5: `null` yields the unset zero state, the empty JSON
string yields set-with-empty-string, and the JSON number `123` is a
decode error. -/
theorem c5_nullstring_unmarshal_witness :
    nullStringUnmarshalJSON nullStringZero JsonValue.null = (nullStringZero, none)
    ∧ nullStringUnmarshalJSON nullStringZero (JsonValue.str "") =
        (⟨"", true⟩, none)
    ∧ ∃ e, (nullStringUnmarshalJSON nullStringZero (JsonValue.num 123)).2 = some e := by
  exact c5_nullstring_unmarshal "" (JsonValue.num 123) nullStringZero
    (by intro s2 h; cases h) (by intro h; cases h)

/-- C10: `NullString.UnmarshalJSON` is atomic and null-preserving: on
any non-string non-null input it errors with both fields exactly as
they were, and the `null` literal returns no error without modifying
either field — even when the receiver already holds a set value. -/
theorem c10_nullstring_atomic (ns : NullString) (j : JsonValue)
    (hstr : ∀ s2, j ≠ JsonValue.str s2) (hnull : j ≠ JsonValue.null) :
    (∃ e, nullStringUnmarshalJSON ns j = (ns, some e))
    ∧ nullStringUnmarshalJSON ns JsonValue.null = (ns, none) := by
  refine ⟨?_, rfl⟩
  cases j with
  | null => exact absurd rfl hnull
  | str s2 => exact absurd rfl (hstr s2)
  | num n => exact ⟨_, rfl⟩
  | boolean b => exact ⟨_, rfl⟩
  | arr => exact ⟨_, rfl⟩
  | obj => exact ⟨_, rfl⟩

/-- Witness for C10 at a receiver already holding `Valid = true` and a
non-empty string: a boolean input errors leaving it intact, and `null`
leaves the prior value in place rather than resetting it. -/
theorem c10_nullstring_atomic_witness :
    (∃ e, nullStringUnmarshalJSON ⟨"keep", true⟩ (JsonValue.boolean true) =
      (⟨"keep", true⟩, some e))
    ∧ nullStringUnmarshalJSON ⟨"keep", true⟩ JsonValue.null =
        (⟨"keep", true⟩, none) :=
  c10_nullstring_atomic ⟨"keep", true⟩ (JsonValue.boolean true)
    (by intro s2 h; cases h) (by intro h; cases h)

/-- C6: `RemoteAddress.UnmarshalJSON` resolves the address against the
family selected by the `type` field — `"v4"` against network `"ip4"`,
`"v6"` against `"ip6"`.  On success the resolved value's `Network()` is
`"ip"` and its `String()` is the canonical text of the address; on
resolution failure the resolver error is wrapped; any other `type`
value produces an error whose message names that value.  Concretely,
`"127.0.0.1"` resolves for `"v4"` with canonical text exactly
`"127.0.0.1"`. -/
theorem c6_remote_address (ra : RemoteAddress) (rtype address : String)
    (a : IPAddr) :
    (resolveIPAddr "ip4" address = some a →
      remoteAddressUnmarshalJSON ra "v4" address = (⟨"v4", address, some a⟩, none)
      ∧ remoteAddressNetwork ⟨"v4", address, some a⟩ = some "ip"
      ∧ remoteAddressString ⟨"v4", address, some a⟩ = some (ipAddrString a))
    ∧ (resolveIPAddr "ip4" address = none →
      remoteAddressUnmarshalJSON ra "v4" address = (⟨"v4", address, ra.ipAddr⟩,
        some (GoErr.wrap "kenall: failde to resolve IP address: "
          (GoErr.fmtErr "lookup failure"))))
    ∧ (resolveIPAddr "ip6" address = some a →
      remoteAddressUnmarshalJSON ra "v6" address = (⟨"v6", address, some a⟩, none)
      ∧ remoteAddressNetwork ⟨"v6", address, some a⟩ = some "ip"
      ∧ remoteAddressString ⟨"v6", address, some a⟩ = some (ipAddrString a))
    ∧ (resolveIPAddr "ip6" address = none →
      remoteAddressUnmarshalJSON ra "v6" address = (⟨"v6", address, ra.ipAddr⟩,
        some (GoErr.wrap "kenall: failed to resolve IP address: "
          (GoErr.fmtErr "lookup failure"))))
    ∧ (rtype ≠ "v4" → rtype ≠ "v6" →
      remoteAddressUnmarshalJSON ra rtype address = (⟨rtype, address, ra.ipAddr⟩,
        some (GoErr.fmtErr
          ("kenall: undefined type of RemoteAddress, type = " ++ rtype)))
      ∧ ∃ pre, errMessage (GoErr.fmtErr
          ("kenall: undefined type of RemoteAddress, type = " ++ rtype)) =
            pre ++ rtype)
    ∧ resolveIPAddr "ip4" "127.0.0.1" = some ⟨IP.v4 127 0 0 1⟩
    ∧ ipAddrString ⟨IP.v4 127 0 0 1⟩ = "127.0.0.1" := by
  refine ⟨?_, ?_, ?_, ?_, ?_, by decide, by decide⟩
  · intro h
    refine ⟨?_, rfl, rfl⟩
    simp [remoteAddressUnmarshalJSON, h]
  · intro h
    simp [remoteAddressUnmarshalJSON, h]
  · intro h
    refine ⟨?_, rfl, rfl⟩
    simp [remoteAddressUnmarshalJSON, h]
  · intro h
    simp [remoteAddressUnmarshalJSON, h]
  · intro h1 h2
    refine ⟨?_, "kenall: undefined type of RemoteAddress, type = ", rfl⟩
    simp [remoteAddressUnmarshalJSON, h1, h2]

/-- Witness for C6: `{"type":"v4","address":"127.0.0.1"}` decodes with
`Network() = "ip"` and `String() = "127.0.0.1"`; type `"v8"` errors
naming `v8`; the unresolvable `"not-an-ip"` errors with the resolver
wrap. -/
theorem c6_remote_address_witness :
    remoteAddressUnmarshalJSON remoteAddressZero "v4" "127.0.0.1" =
      (⟨"v4", "127.0.0.1", some ⟨IP.v4 127 0 0 1⟩⟩, none)
    ∧ remoteAddressNetwork ⟨"v4", "127.0.0.1", some ⟨IP.v4 127 0 0 1⟩⟩ = some "ip"
    ∧ remoteAddressString ⟨"v4", "127.0.0.1", some ⟨IP.v4 127 0 0 1⟩⟩ =
        some "127.0.0.1"
    ∧ remoteAddressUnmarshalJSON remoteAddressZero "v8" "127.0.0.1" =
        (⟨"v8", "127.0.0.1", none⟩, some (GoErr.fmtErr
          "kenall: undefined type of RemoteAddress, type = v8"))
    ∧ remoteAddressUnmarshalJSON remoteAddressZero "v4" "not-an-ip" =
        (⟨"v4", "not-an-ip", none⟩,
         some (GoErr.wrap "kenall: failde to resolve IP address: "
           (GoErr.fmtErr "lookup failure"))) := by
  have h1 := (c6_remote_address remoteAddressZero "v8" "127.0.0.1"
    ⟨IP.v4 127 0 0 1⟩).1 (by decide)
  have h2 := (c6_remote_address remoteAddressZero "v8" "127.0.0.1"
    ⟨IP.v4 127 0 0 1⟩).2.2.2.2.1 (by decide) (by decide)
  have h3 := (c6_remote_address remoteAddressZero "v4" "not-an-ip"
    ⟨IP.v4 127 0 0 1⟩).2.1 (by decide)
  refine ⟨h1.1, h1.2.1, ?_, h2.1, h3⟩
  have hs : ipAddrString ⟨IP.v4 127 0 0 1⟩ = "127.0.0.1" := by decide
  rw [← hs]
  exact h1.2.2

/-- C9: `GetBusinessDays` rejects the zero date with the
`InvalidArgument` sentinel before any request is built; on a 200
response it assembles the result client-side, the `LegalHoliday` flag
being exactly the boolean `result` wire field and the date being the
caller's input date unchanged. -/
theorem c9_business_days (cli : Client) (date : GoTime) (b : Bool)
    (hz : date.isZero = false) :
    (∀ (d0 : GoTime) (r0 : DoResult Bool), d0.isZero = true →
      GetBusinessDays cli d0 r0 = (none, Except.error GoErr.invalidArgument))
    ∧ GetBusinessDays cli date (DoResult.response 200 (Except.ok b)) =
        (some ⟨"GET",
          cli.endpoint ++ "/businessdays/check?date=" ++ goFormatDate date⟩,
         Except.ok ⟨⟨b, date⟩⟩)
    ∧ (GetBusinessDays cli date (DoResult.response 200 (Except.ok b))).2 =
        Except.ok ⟨⟨b, date⟩⟩ := by
  refine ⟨?_, ?_, ?_⟩
  · intro d0 r0 h0
    simp [GetBusinessDays, h0]
  · simp [GetBusinessDays, hz, sendRequest]
  · simp [GetBusinessDays, hz, sendRequest]

/-- Witness for C9: the zero time is rejected with `InvalidArgument`
and no request; the date 2022-01-01 with wire result `true` yields a
`BusinessDay` holding that flag and that exact date. -/
theorem c9_business_days_witness :
    GetBusinessDays testClient goTimeZero (DoResult.response 200 (Except.ok true)) =
      (none, Except.error GoErr.invalidArgument)
    ∧ GetBusinessDays testClient ⟨2022, 1, 1, 0, 0⟩
        (DoResult.response 200 (Except.ok true)) =
      (some ⟨"GET", "https://api.kenall.jp/v1/businessdays/check?date=2022-01-01"⟩,
       Except.ok ⟨⟨true, ⟨2022, 1, 1, 0, 0⟩⟩⟩) := by
  have h := c9_business_days testClient ⟨2022, 1, 1, 0, 0⟩ true (by decide)
  refine ⟨h.1 goTimeZero (DoResult.response 200 (Except.ok true)) (by decide), ?_⟩
  rw [h.2.1]
  rfl

/-- C8 counterexample: for the address `"a#b"` (already trimmed),
`GetNormalizeAddress` builds the URL by raw concatenation with no
encoding, so everything from `#` on parses as a fragment and the query
parameter `t` carried by the URL is `"a"`, not the trimmed input text —
falsifying the claim that the URL carries the trimmed text as a
properly encoded query parameter `t`. -/
theorem c8_normalize_counterexample :
    trimSpace "a#b" = "a#b"
    ∧ (GetNormalizeAddress testClient "a#b"
        (DoResult.response 404 (Except.error ""))).1 =
        some ⟨"GET", "https://api.kenall.jp/v1/postalcode/?t=a#b"⟩
    ∧ queryGet (urlRawQuery "https://api.kenall.jp/v1/postalcode/?t=a#b") "t" =
        some "a"
    ∧ some "a" ≠ some (trimSpace "a#b") := by
  exact ⟨by decide, rfl, by decide, by decide⟩

/-- C8 (amended): `GetNormalizeAddress` trims the input of surrounding
whitespace; an empty trimmed input returns the `InvalidArgument`
sentinel with no request built; otherwise a GET request to
`/postalcode/` is built whose URL appends the trimmed text verbatim
after `?t=`, with no URL encoding applied — so the text is carried
intact as the `t` query parameter only when it contains no URL
metacharacters. -/
theorem c8_normalize (cli : Client) (address : String)
    (r : DoResult GetNormalizeAddressResponse) :
    (trimSpace address = "" → GetNormalizeAddress cli address r =
      (none, Except.error GoErr.invalidArgument))
    ∧ (trimSpace address ≠ "" →
      (GetNormalizeAddress cli address r).1 =
        some ⟨"GET", cli.endpoint ++ "/postalcode/?t=" ++ trimSpace address⟩) := by
  constructor
  · intro h
    simp [GetNormalizeAddress, h]
  · intro h
    simp only [GetNormalizeAddress]
    rw [if_neg (by simpa using h)]
    cases sendRequest r <;> rfl

/-- Witness for C8 (amended): a whitespace-only address is rejected
with no request; `" tokyo tower "` is trimmed and appended verbatim
after `?t=`. -/
theorem c8_normalize_witness :
    GetNormalizeAddress testClient "   " (DoResult.response 404 (Except.error "")) =
      (none, Except.error GoErr.invalidArgument)
    ∧ (GetNormalizeAddress testClient " tokyo tower "
        (DoResult.response 404 (Except.error ""))).1 =
      some ⟨"GET", "https://api.kenall.jp/v1/postalcode/?t=tokyo tower"⟩ := by
  have h1 := (c8_normalize testClient "   "
    (DoResult.response 404 (Except.error ""))).1 (by decide)
  have h2 := (c8_normalize testClient " tokyo tower "
    (DoResult.response 404 (Except.error ""))).2 (by decide)
  refine ⟨h1, ?_⟩
  rw [h2]
  rfl
